import Mathlib

/-!
Verification development for the PersonaForge interactive-fiction client.

The definitions below are a shallow embedding of the repository's session /
narrative-state core: the data model of `src/types.ts`, the chat-turn,
time-skip and new-persona handlers of `src/components/ChatArea.tsx`, the
character-creation completion of the `CharacterSetup` component, the session
collection and persistence effects of the `App` component, and the
response-processing parts of `src/services/geminiService.ts`.  External
AI calls are modelled by passing their outcome (`Except`/parse results) as an
explicit argument; clock readings (`Date.now()`) are passed as `Nat`
arguments.
-/

namespace PersonaForge

/-! ## Data model (src/types.ts) -/

/-- Record `HumanPreferences` of src/types.ts. -/
structure HumanPreferences where
  ageGroup : String
  bodyType : String
  tastePreference : String
deriving DecidableEq, Repr

/-- Values of `DietConfig.type` of src/types.ts. -/
inductive DietType
  | HERBIVORE
  | CARNIVORE
deriving DecidableEq, Repr

/-- Record `DietConfig` of src/types.ts. -/
structure DietConfig where
  type : DietType
  details : String
  eatsHumans : Bool
  humanPreferences : Option HumanPreferences
deriving DecidableEq, Repr

/-- Values of `EncounterConfig.whoSawFirst` of src/types.ts. -/
inductive WhoSawFirst
  | USER
  | CHARACTER
  | BOTH
deriving DecidableEq, Repr

/-- Record `EncounterConfig` of src/types.ts. -/
structure EncounterConfig where
  environment : String
  whoSawFirst : WhoSawFirst
deriving DecidableEq, Repr

/-- Record `Character` of src/types.ts; optional TS fields become `Option`. -/
structure Character where
  id : String
  name : String
  description : String
  baseImage : String
  systemInstruction : String
  height : Option String
  weight : Option String
  powers : Option String
  age : Option String
  lifeExpectancy : Option String
  diet : Option DietConfig
  encounter : Option EncounterConfig
  questionAnswers : Option (List (String × String))
deriving DecidableEq, Repr

/-- Record `UserPersona` of src/types.ts. -/
structure UserPersona where
  name : String
  appearance : String
  baseImage : Option String
  height : String
  weight : String
  age : String
deriving DecidableEq, Repr

/-- Values of `Message.role` of src/types.ts. -/
inductive Role
  | user
  | model
deriving DecidableEq, Repr

/-- Record `Message` of src/types.ts.  `isDeath` is an optional boolean in TS;
JS truthiness of `m.isDeath` corresponds to `m.isDeath.getD false`. -/
structure Message where
  id : String
  role : Role
  text : String
  timestamp : Nat
  isDeath : Option Bool
  generatedImage : Option String
deriving DecidableEq, Repr

/-- Record `ChatSession` of src/types.ts. -/
structure ChatSession where
  id : String
  character : Character
  userPersona : Option UserPersona
  messages : List Message
  lastUpdated : Nat
  previewText : Option String
deriving DecidableEq, Repr

/-! ## JS string operations

`String.prototype.includes` and single-occurrence `String.prototype.replace`
(a string pattern replaces only the first occurrence), modelled on the
character list underlying the string. -/

/-- Does `pat` occur as a contiguous sublist of `s`? -/
def listIsInfixOf : List Char → List Char → Bool
  | pat, [] => pat.isEmpty
  | pat, c :: rest => pat.isPrefixOf (c :: rest) || listIsInfixOf pat rest

/-- JS `s.includes(pat)`. -/
def strIncludes (s pat : String) : Bool :=
  listIsInfixOf pat.toList s.toList

/-- Replace the first occurrence of `pat` in `s` by `repl` (JS
`String.prototype.replace` with a string pattern). -/
def replaceFirstList (repl : List Char) : List Char → List Char → List Char
  | _, [] => []
  | pat, c :: rest =>
    if pat.isPrefixOf (c :: rest) then repl ++ (c :: rest).drop pat.length
    else c :: replaceFirstList repl pat rest

/-- JS `s.replace(pat, repl)` for a string pattern: first occurrence only. -/
def replaceFirst (s pat repl : String) : String :=
  ⟨replaceFirstList repl.toList pat.toList s.toList⟩

/-- Whitespace for the purposes of JS `String.prototype.trim`. -/
def isJsWhitespace (c : Char) : Bool :=
  c = ' ' || c = '\t' || c = '\n' || c = '\r'

/-- JS `s.trim()`: strip whitespace from both ends. -/
def jsTrim (s : String) : String :=
  ⟨((s.toList.dropWhile isJsWhitespace).reverse.dropWhile isJsWhitespace).reverse⟩

/-! ## geminiService.ts response processing -/

/-- One part of a generate-content response; `inlineData` carries the
base64 payload when the part is an image/audio part. -/
structure Part where
  inlineData : Option String
deriving DecidableEq, Repr

/-- The `for (const part of parts) if (part.inlineData) return ...` scan used
by the image endpoints of src/services/geminiService.ts. -/
def firstInlineData : List Part → Option String
  | [] => none
  | p :: rest =>
    match p.inlineData with
    | some d => some d
    | none => firstInlineData rest

/-- Function `evolveCharacterVisuals` (src/services/geminiService.ts): returns the
first inline image of the response, or the input image unchanged when the
response holds no inline data. -/
def evolveCharacterVisuals (base64Image : String) (parts : List Part) : String :=
  match firstInlineData parts with
  | some d => d
  | none => base64Image

/-- Function `editCharacterImage` (src/services/geminiService.ts): returns the first
inline image of the response, or raises when the response holds none. -/
def editCharacterImage (base64Image : String) (parts : List Part) :
    Except String String :=
  match firstInlineData parts with
  | some d => Except.ok d
  | none => Except.error "Nenhuma imagem gerada."

/-- The structured result `processTimeSkip` promises to its caller. -/
structure TimeSkipUpdates where
  newWeight : String
  newHeight : String
  newAge : String
  stats : String
  summary : String
  visualEvolutionPrompt : String
deriving DecidableEq, Repr

/-- Outcome of `JSON.parse` on the collaborator's reply text: a well-formed
structured document, or a malformed one (parse exception). -/
inductive TimeSkipParse
  | ok (u : TimeSkipUpdates)
  | malformed
deriving DecidableEq, Repr

/-- Function `processTimeSkip` (src/services/geminiService.ts): parses the JSON reply;
a parse failure is caught and silently replaced by a fallback record built
from the character's current attributes. -/
def processTimeSkip (character : Character) (duration : String)
    (parsed : TimeSkipParse) : TimeSkipUpdates :=
  match parsed with
  | .ok u => u
  | .malformed =>
    { newWeight := character.weight.getD "?"
      newHeight := character.height.getD "?"
      newAge := character.age.getD "?"
      stats := "Sobreviveu."
      summary := "Passaram-se " ++ duration ++ ". O personagem continuou sua existência."
      visualEvolutionPrompt := "older, different appearance" }

/-- The structured profile `autoFillCharacterProfile` promises. -/
structure ProfileResult where
  name : String
  backstory : String
  height : String
  weight : String
  age : String
  lifeExpectancy : String
  powers : String
  environment : String
  diet : DietConfig
  answers : List (String × String)
deriving DecidableEq, Repr

/-- Function `autoFillCharacterProfile` (src/services/geminiService.ts), parse step:
a well-parsed document is returned (answers copied key by key); a parse
failure raises `Falha ao gerar perfil automático.`. -/
def autoFillCharacterProfile (parsed : Option ProfileResult) :
    Except String ProfileResult :=
  match parsed with
  | some raw => Except.ok raw
  | none => Except.error "Falha ao gerar perfil automático."

/-! ## ChatArea component (src/components/ChatArea.tsx)

The component's `useState` cells are gathered into one record; each event
handler becomes a function from the record (plus the outcome of the awaited
external call and the clock readings it takes) to the updated record.
Side-channel outputs that the claims talk about (was voice synthesis
requested, was the failure reported to the user) are returned as booleans. -/

/-- The `useState` cells of the `ChatArea` component that the narrative core
reads or writes. -/
structure ChatState where
  activeCharacter : Character
  activeUserPersona : Option UserPersona
  messages : List Message
  inputText : String
  isProcessing : Bool
  autoPlayTTS : Bool
  isDead : Bool
  showTimeSkipInput : Bool
  timeSkipDuration : String
  isSkippingTime : Bool
  showNewUserForm : Bool
  showActionInput : Bool
  actionPrompt : String
  isGeneratingScene : Bool
deriving DecidableEq, Repr

/-- The narrative states of spec section 4.2, read off the component flags:
`AWAITING_NEW_PERSONA` while the mandatory new-persona form is up,
`TIME_SKIP_PENDING` while a skip is in flight, `DEAD` under the death lock,
`ALIVE` otherwise. -/
inductive DerivedState
  | ALIVE
  | DEAD
  | TIME_SKIP_PENDING
  | AWAITING_NEW_PERSONA
deriving DecidableEq, Repr

/-- Derive the spec's state-machine state from the component flags. -/
def deriveState (s : ChatState) : DerivedState :=
  if s.showNewUserForm then DerivedState.AWAITING_NEW_PERSONA
  else if s.isSkippingTime then DerivedState.TIME_SKIP_PENDING
  else if s.isDead then DerivedState.DEAD
  else DerivedState.ALIVE

/-- The death-derivation `useEffect` of `ChatArea` (lines 63-71): whenever the
message list changes, if the most recent message carries `isDeath`, latch
`isDead` to true. -/
def applyDeathEffect (s : ChatState) : ChatState :=
  match s.messages.getLast? with
  | some lastMsg => if lastMsg.isDeath.getD false then { s with isDead := true } else s
  | none => s

/-- The literal death sentinel scanned for in `handleSendMessage`. -/
def deathTag : String := "[GAME_OVER]"

/-- Handler `handleSendMessage` (ChatArea lines 83-134).  `chatResult` is the awaited
outcome of `chatWithCharacter`; `t1` is the clock at the optimistic user
append, `t2` the clock when the reply lands.  The returned boolean records
whether voice synthesis was requested for the reply. -/
def handleSendMessage (s : ChatState) (chatResult : Except Unit String)
    (t1 t2 : Nat) : ChatState × Bool :=
  if jsTrim s.inputText = "" then (s, false)
  else
    let userMsg : Message :=
      { id := toString t1, role := Role.user, text := s.inputText, timestamp := t1,
        isDeath := none, generatedImage := none }
    let s1 : ChatState :=
      { s with messages := s.messages ++ [userMsg], inputText := "", isProcessing := true }
    match chatResult with
    | Except.error _ =>
      let errMsg : Message :=
        { id := "err", role := Role.model, text := "(Conexão interrompida...)",
          timestamp := t2, isDeath := none, generatedImage := none }
      ({ s1 with messages := s1.messages ++ [errMsg], isProcessing := false }, false)
    | Except.ok responseText =>
      let died := strIncludes responseText deathTag
      let cleanText := jsTrim (replaceFirst responseText deathTag "")
      let botMsg : Message :=
        { id := toString (t2 + 1), role := Role.model, text := cleanText,
          timestamp := t2, isDeath := some died, generatedImage := none }
      let s2 : ChatState :=
        { s1 with messages := s1.messages ++ [botMsg], isProcessing := false }
      if died then ({ s2 with isDead := true }, false)
      else (s2, s.autoPlayTTS)

/-- A chat-send UI event: the input field, its Enter handler and the send
button are all disabled while `isDead` (ChatArea lines 460-488), so a send
while dead is a no-op; otherwise `handleSendMessage` runs and the message
effect re-derives the death flag. -/
def sendMessageEvent (s : ChatState) (chatResult : Except Unit String)
    (t1 t2 : Nat) : ChatState × Bool :=
  if s.isDead then (s, false)
  else
    let r := handleSendMessage s chatResult t1 t2
    (applyDeathEffect r.1, r.2)

/-- Text of the transient time-skip placeholder message. -/
def skipCalcText : String :=
  "⏳ O tempo está passando... Calculando consequências do período..."

/-- The consolidated time-skip narrative text (ChatArea line 171): duration,
activity log, stats, then a one-line weight/height/age status. -/
def skipSummaryText (duration : String) (updates : TimeSkipUpdates) : String :=
  "⏰ SALTO NO TEMPO CONCLUÍDO: " ++ duration ++ ".\n\n📜 DIÁRIO DE ATIVIDADES:\n"
    ++ updates.summary ++ "\n\n📊 Estatísticas:\n" ++ updates.stats
    ++ "\n\nStatus Atual: Peso " ++ updates.newWeight ++ " | Altura "
    ++ updates.newHeight ++ " | Idade " ++ updates.newAge

/-- Handler `handleTimeSkip` (ChatArea lines 136-185).  `skipResult` is the awaited
outcome of `processTimeSkip`, `imgResult` the awaited outcome of
`evolveCharacterVisuals` (consulted only when a visual-evolution instruction
is present; its failure is non-fatal); `t1` is the clock at the placeholder
append, `t2` the clock when the result lands.  The returned boolean records
whether the failure alert was shown. -/
def handleTimeSkip (s : ChatState) (skipResult : Except Unit TimeSkipUpdates)
    (imgResult : Except Unit String) (t1 t2 : Nat) : ChatState × Bool :=
  if s.timeSkipDuration = "" then (s, false)
  else
    let placeholder : Message :=
      { id := "skip_calc", role := Role.model, text := skipCalcText,
        timestamp := t1, isDeath := none, generatedImage := none }
    let s1 : ChatState :=
      { s with isSkippingTime := true, messages := s.messages ++ [placeholder] }
    match skipResult with
    | Except.error _ =>
      ({ s1 with messages := s1.messages.filter (fun m => m.id ≠ "skip_calc"),
                 isSkippingTime := false }, true)
    | Except.ok updates =>
      let newImage :=
        if updates.visualEvolutionPrompt ≠ "" then
          match imgResult with
          | Except.ok img => img
          | Except.error _ => s.activeCharacter.baseImage
        else s.activeCharacter.baseImage
      let newCharacter : Character :=
        { s.activeCharacter with
            weight := some updates.newWeight
            height := some updates.newHeight
            age := some updates.newAge
            baseImage := newImage }
      let skipMsg : Message :=
        { id := toString t2, role := Role.model,
          text := skipSummaryText s.timeSkipDuration updates,
          timestamp := t2, isDeath := none, generatedImage := none }
      ({ s1 with
           activeCharacter := newCharacter
           messages := (s1.messages.filter (fun m => m.id ≠ "skip_calc")) ++ [skipMsg]
           showTimeSkipInput := false
           showNewUserForm := true
           isSkippingTime := false }, false)

/-- A time-skip UI event: the confirm button exists only on the overlay shown
while `isDead && showTimeSkipInput && !showNewUserForm` and is disabled while
a skip is already in flight (ChatArea lines 379-399); then `handleTimeSkip`
runs and the message effect re-derives the death flag. -/
def timeSkipEvent (s : ChatState) (skipResult : Except Unit TimeSkipUpdates)
    (imgResult : Except Unit String) (t1 t2 : Nat) : ChatState × Bool :=
  if s.isDead && s.showTimeSkipInput && !s.showNewUserForm && !s.isSkippingTime then
    let r := handleTimeSkip s skipResult imgResult t1 t2
    (applyDeathEffect r.1, r.2)
  else (s, false)

/-- The entrance message appended when a new persona is submitted
(ChatArea lines 190-195); it never carries `isDeath`. -/
def entranceMsg (newUser : UserPersona) (t : Nat) : Message :=
  { id := toString t, role := Role.user,
    text := "*Um novo aventureiro se aproxima...*\nNome: " ++ newUser.name
      ++ "\nIdade: " ++ newUser.age ++ "\nDescrição: " ++ newUser.appearance,
    timestamp := t, isDeath := none, generatedImage := none }

/-- Handler `handleNewUserCreated` (ChatArea lines 187-202): replace the session's
persona, append the entrance message, drop the forms and clear the death
lock and duration. -/
def handleNewUserCreated (s : ChatState) (newUser : UserPersona) (t : Nat) :
    ChatState :=
  { s with
      activeUserPersona := some newUser
      messages := s.messages ++ [entranceMsg newUser t]
      showNewUserForm := false
      isDead := false
      isSkippingTime := false
      timeSkipDuration := "" }

/-- A new-persona submission event (the `UserSetup` form's `onComplete`
callback), followed by the message effect. -/
def newUserCreatedEvent (s : ChatState) (newUser : UserPersona) (t : Nat) :
    ChatState :=
  applyDeathEffect (handleNewUserCreated s newUser t)

/-- Handler `handleGenerateAction` (ChatArea lines 204-235).  `genResult` is the
awaited outcome of `generateActionScene`. -/
def handleGenerateAction (s : ChatState) (genResult : Except Unit String)
    (t1 t2 : Nat) : ChatState :=
  if jsTrim s.actionPrompt = "" then s
  else
    let userActionMsg : Message :=
      { id := toString t1, role := Role.user, text := "(Ação) " ++ s.actionPrompt,
        timestamp := t1, isDeath := none, generatedImage := none }
    let s1 : ChatState :=
      { s with isGeneratingScene := true, showActionInput := false,
               messages := s.messages ++ [userActionMsg] }
    match genResult with
    | Except.ok imageBase64 =>
      let sceneMsg : Message :=
        { id := toString (t2 + 1), role := Role.model,
          text := "*Uma cena se desenrola: " ++ s.actionPrompt ++ "*",
          timestamp := t2, isDeath := none, generatedImage := some imageBase64 }
      { s1 with messages := s1.messages ++ [sceneMsg], actionPrompt := "",
                isGeneratingScene := false }
    | Except.error _ =>
      let errMsg : Message :=
        { id := "err", role := Role.model, text := "(Falha ao visualizar a cena)",
          timestamp := t2, isDeath := none, generatedImage := none }
      { s1 with messages := s1.messages ++ [errMsg], isGeneratingScene := false }

/-- The ids of a message log, in order. -/
def msgIds (msgs : List Message) : List String :=
  msgs.map Message.id

/-! ## CharacterSetup component (src/unnamed/part_000) -/

/-- The fifteen personality questions of `CharacterSetup`. -/
def QUESTIONS : List String :=
  [ "Como essa criatura/personagem surgiu? (Nascimento natural, experimento, maldição, construção...)"
  , "Qual é o seu habitat natural? O ambiente é hostil ou acolhedor?"
  , "Ela é única ou parte de uma espécie? Segue normas do grupo ou é pária?"
  , "O que ela mais deseja neste exato momento? (Comida, segurança, poder...)"
  , "Qual é o seu objetivo de longo prazo?"
  , "O que ela estaria disposta a sacrificar para conseguir o que quer?"
  , "Do que ela tem medo? (Físico ou abstrato)"
  , "Qual é a sua maior fraqueza?"
  , "O que a faria fugir de uma batalha?"
  , "Como ela reage ao desconhecido? (Curiosidade, agressividade, cautela)"
  , "Ela possui algum código moral ou de honra?"
  , "Como ela se comunica? (Linguagem, grunhidos, telepatia)"
  , "O que a faria poupar a vida de um inimigo?"
  , "Ela tem algum hábito ou tique estranho?"
  , "Como ela passa o tempo quando não está caçando ou trabalhando?" ]

/-- The `useState` cells of the `CharacterSetup` form. -/
structure SetupState where
  image : Option String
  name : String
  description : String
  storyTone : String
  height : String
  weight : String
  age : String
  lifeExpectancy : String
  powers : String
  environment : String
  whoSawFirst : WhoSawFirst
  dietType : DietType
  dietDetails : String
  eatsHumans : Bool
  humanPreferences : HumanPreferences
  answers : List (Nat × String)
deriving DecidableEq, Repr

/-- Initial `CharacterSetup` state for a fresh character (no
`existingCharacter`). -/
def initialSetup : SetupState :=
  { image := none
    name := ""
    description := ""
    storyTone := "Sombrio e Realista"
    height := ""
    weight := ""
    age := ""
    lifeExpectancy := ""
    powers := ""
    environment := ""
    whoSawFirst := WhoSawFirst.BOTH
    dietType := DietType.HERBIVORE
    dietDetails := ""
    eatsHumans := false
    humanPreferences :=
      { ageGroup := "Qualquer um", bodyType := "Qualquer um",
        tastePreference := "Qualquer um" }
    answers := [] }

/-- UI events on the DIET tab.  The diet-type radios are always rendered; the
`Come Humanos?` checkbox is rendered only while `dietType = CARNIVORE`
(part_000 lines 409-433), so toggling it in any other state is impossible
and modelled as a no-op.  Note that switching the diet type back to
HERBIVORE does not reset `eatsHumans`. -/
inductive DietEvent
  | setType (t : DietType)
  | setEatsHumans (b : Bool)
deriving DecidableEq, Repr

/-- Apply one DIET-tab event, honouring the render guard of the checkbox. -/
def applyDietEvent (st : SetupState) (e : DietEvent) : SetupState :=
  match e with
  | DietEvent.setType t => { st with dietType := t }
  | DietEvent.setEatsHumans b =>
    if st.dietType = DietType.CARNIVORE then { st with eatsHumans := b } else st

/-- Apply a sequence of DIET-tab events. -/
def applyDietEvents (st : SetupState) (es : List DietEvent) : SetupState :=
  es.foldl applyDietEvent st

/-- The transparent 1x1 placeholder image used when no image was uploaded. -/
def placeholderImage : String :=
  "iVBORw0KGgoAAAANSUhEUgAAAAEAAAABCAQAAAC1HAwCAAAAC0lEQVR42mNk+A8AAQUBAScY42YAAAAASUVORK5CYII="

/-- Handler `handleComplete` of `CharacterSetup` (part_000 lines 190-224): rejects a
missing name or description, otherwise builds the `Character`.  `t` is the
`Date.now()` reading used for the id.  `humanPreferences` is included iff
`eatsHumans` is set — the diet type is not consulted. -/
def handleComplete (st : SetupState) (t : Nat) : Option Character :=
  if st.name = "" ∨ st.description = "" then none
  else
    some
      { id := toString t
        name := st.name
        description := st.description
        baseImage := st.image.getD placeholderImage
        systemInstruction :=
          "Você é " ++ st.name ++ ". " ++ st.description ++ ". Tom da história: "
            ++ st.storyTone ++ "."
        height := some st.height
        weight := some st.weight
        powers := some st.powers
        age := some st.age
        lifeExpectancy := some st.lifeExpectancy
        diet := some
          { type := st.dietType
            details := st.dietDetails
            eatsHumans := st.eatsHumans
            humanPreferences := if st.eatsHumans then some st.humanPreferences else none }
        encounter := some { environment := st.environment, whoSawFirst := st.whoSawFirst }
        questionAnswers :=
          some (st.answers.map (fun kv => (QUESTIONS.getD kv.1 "", kv.2))) }

/-! ## UserSetup component (src/components/UserSetup.tsx) -/

/-- Handler `handleSubmit` of `UserSetup`: requires name, height, weight and age to
be non-empty; an empty appearance falls back to a fixed default. -/
def userSetupSubmit (name appearance height weight age : String)
    (image : Option String) : Option UserPersona :=
  if name = "" ∨ height = "" ∨ weight = "" ∨ age = "" then none
  else
    some
      { name := name
        appearance := if appearance = "" then "Aparência padrão." else appearance
        baseImage := image
        height := height
        weight := weight
        age := age }

/-! ## App component: session collection and persistence (src/unnamed/part_002) -/

/-- Handler `handleUserSetupComplete` (part_002 lines 71-94), session-creation part:
a fresh session with the single seed message. -/
def createSession (tempCharacter : Character) (user : UserPersona) (t : Nat) :
    ChatSession :=
  { id := toString t
    character := tempCharacter
    userPersona := some user
    messages :=
      [ { id := "init", role := Role.model,
          text := "*" ++ tempCharacter.name ++ " entra na sala.*",
          timestamp := t, isDeath := none, generatedImage := none } ]
    lastUpdated := t
    previewText := some "Início da jornada..." }

/-- Handler `handleDeleteSession` (part_002 lines 104-113): after the confirm dialog,
drop the session and clear the active id if it pointed at it. -/
def handleDeleteSession (sessions : List ChatSession)
    (activeSessionId : Option String) (sessionId : String) (confirmed : Bool) :
    List ChatSession × Option String :=
  if confirmed then
    (sessions.filter (fun s => s.id ≠ sessionId),
     if activeSessionId = some sessionId then none else activeSessionId)
  else (sessions, activeSessionId)

/-- Handler `handleSessionUpdate` (part_002 lines 115-132): atomic replace of the
active session's mutable fields, recomputing the preview from the last
message. -/
def handleSessionUpdate (sessions : List ChatSession)
    (activeSessionId : Option String) (messages : List Message)
    (updatedCharacter : Character) (updatedUser : Option UserPersona)
    (now : Nat) : List ChatSession :=
  match activeSessionId with
  | none => sessions
  | some aid =>
    sessions.map fun s =>
      if s.id = aid then
        { s with
            messages := messages
            character := updatedCharacter
            userPersona := updatedUser
            lastUpdated := now
            previewText :=
              match messages.getLast? with
              | some lastMsg => some (lastMsg.text.take 40 ++ "...")
              | none => s.previewText }
      else s

/-- The `localStorage` slot under the fixed key `persona_sessions`, as the
narrative core observes it: absent, unparseable, or a stored collection. -/
inductive StoredBlob
  | missing
  | corrupt
  | valid (sessions : List ChatSession)
deriving DecidableEq, Repr

/-- The save `useEffect` (part_002 lines 35-40): the full collection is
rewritten on every change — but only when the collection is non-empty; an
empty collection leaves the previously stored blob in place. -/
def saveSessionsEffect (blob : StoredBlob) (sessions : List ChatSession) :
    StoredBlob :=
  if sessions.length > 0 then StoredBlob.valid sessions else blob

/-- The load `useEffect` (part_002 lines 22-33): a missing item is skipped
and a parse exception is caught, so both leave the collection empty. -/
def loadSessionsEffect (blob : StoredBlob) : List ChatSession :=
  match blob with
  | StoredBlob.missing => []
  | StoredBlob.corrupt => []
  | StoredBlob.valid sessions => sessions

/-- Mounting `ChatArea` on a session: the local state is initialised from
the session's data (ChatArea lines 36-55) and the death-derivation effect
runs once on the initial message list. -/
def mountChatArea (session : ChatSession) : ChatState :=
  applyDeathEffect
    { activeCharacter := session.character
      activeUserPersona := session.userPersona
      messages := session.messages
      inputText := ""
      isProcessing := false
      autoPlayTTS := true
      isDead := false
      showTimeSkipInput := false
      timeSkipDuration := ""
      isSkippingTime := false
      showNewUserForm := false
      showActionInput := false
      actionPrompt := ""
      isGeneratingScene := false }

/-! ## Concrete fixtures -/

/-- A concrete character used by witnesses and counterexamples. -/
def grogCharacter : Character :=
  { id := "c1"
    name := "Grog"
    description := "Um ogro imenso"
    baseImage := "img0"
    systemInstruction := "Você é Grog. Um ogro imenso. Tom da história: Sombrio e Realista."
    height := some "2.10m"
    weight := some "150kg"
    powers := some "Super Força"
    age := some "30 anos"
    lifeExpectancy := some "200 anos"
    diet := some
      { type := DietType.CARNIVORE, details := "Cervos", eatsHumans := false,
        humanPreferences := none }
    encounter := some { environment := "Caverna úmida", whoSawFirst := WhoSawFirst.BOTH }
    questionAnswers := some [] }

/-- A concrete user persona used by witnesses and counterexamples. -/
def viajante : UserPersona :=
  { name := "Lia"
    appearance := "Capa vermelha"
    baseImage := none
    height := "1.70m"
    weight := "60kg"
    age := "25 anos" }

/-- A freshly created session over the fixtures. -/
def seedSession : ChatSession := createSession grogCharacter viajante 100

/-- The chat state right after mounting the seed session, with a typed
input. -/
def aliveChat : ChatState :=
  { mountChatArea seedSession with inputText := "Eu ataco o ogro" }

/-- The chat state after a reply carrying the death sentinel. -/
def deadChat : ChatState :=
  (sendMessageEvent aliveChat (Except.ok "Grog te esmaga. [GAME_OVER]") 200 201).1

/-- The dead state with the time-skip overlay open and a duration typed. -/
def timeSkipReady : ChatState :=
  { deadChat with showTimeSkipInput := true, timeSkipDuration := "10 anos" }

/-- A concrete successful time-skip result. -/
def sampleUpdates : TimeSkipUpdates :=
  { newWeight := "300kg"
    newHeight := "3m"
    newAge := "40 anos"
    stats := "50 mortes"
    summary := "Devorou 3 viajantes."
    visualEvolutionPrompt := "" }

/-! ## Helper lemmas -/

/-- The death-derivation effect only latches `isDead`; every other field is
kept. -/
theorem applyDeathEffect_eq (s : ChatState) :
    applyDeathEffect s =
      { s with isDead := s.isDead ||
          ((s.messages.getLast?).map (fun m => m.isDeath.getD false)).getD false } := by
  unfold applyDeathEffect
  cases h : s.messages.getLast? with
  | none => simp
  | some m =>
    by_cases hd : m.isDeath.getD false
    · simp [hd]
    · simp [hd]

/-- The death-derivation effect never changes the message log. -/
theorem applyDeathEffect_messages (s : ChatState) :
    (applyDeathEffect s).messages = s.messages := by
  simp [applyDeathEffect_eq]

/-- A successful reply always appends exactly the optimistic user message and
the processed model message. -/
theorem handleSendMessage_ok_messages (s : ChatState) (r : String) (t1 t2 : Nat)
    (h_input : jsTrim s.inputText ≠ "") :
    (handleSendMessage s (Except.ok r) t1 t2).1.messages =
      s.messages ++
        [ { id := toString t1, role := Role.user, text := s.inputText,
            timestamp := t1, isDeath := none, generatedImage := none },
          { id := toString (t2 + 1), role := Role.model,
            text := jsTrim (replaceFirst r deathTag ""), timestamp := t2,
            isDeath := some (strIncludes r deathTag), generatedImage := none } ] := by
  simp only [handleSendMessage, if_neg h_input]
  split <;> simp

/-! ## Claim theorems -/

/-- C4: while the session is DEAD (the death lock is latched), a chat-send
event is never accepted: the state is returned unchanged — no user or model
message is appended — and no voice synthesis is requested. -/
theorem C4_dead_blocks_sendTurn (s : ChatState) (chatResult : Except Unit String)
    (t1 t2 : Nat) (h : s.isDead = true) :
    sendMessageEvent s chatResult t1 t2 = (s, false) := by
  simp [sendMessageEvent, h]

/-- Witness for C4 at the concrete dead state. -/
theorem C4_dead_blocks_sendTurn_witness :
    deadChat.isDead = true ∧
      sendMessageEvent deadChat (Except.ok "Olá de novo") 300 301 = (deadChat, false) :=
  ⟨by decide, C4_dead_blocks_sendTurn deadChat (Except.ok "Olá de novo") 300 301 (by decide)⟩

/-- C1 counterexample: the claim says the displayed text of a
sentinel-carrying reply never contains the sentinel substring; but JS
`replace` with a string pattern strips only the first occurrence, so a reply
carrying the sentinel twice is displayed with the second occurrence intact
(while `isDeath` is still set). -/
theorem C1_counterexample :
    strIncludes "[GAME_OVER] Você foi devorado. [GAME_OVER]" deathTag = true ∧
      (sendMessageEvent aliveChat
          (Except.ok "[GAME_OVER] Você foi devorado. [GAME_OVER]") 20 21).1.messages.getLast?.map
          (fun m => (m.isDeath, strIncludes m.text deathTag)) =
        some (some true, true) := by
  decide

/-- C1 (amended): a chat turn whose reply contains the death sentinel appends
a model message with `isDeath = true` whose displayed text is the reply with
the FIRST occurrence of the sentinel removed and trimmed (sentinel-free
whenever the reply carried a single occurrence, but not in general), the
derived state becomes DEAD, and voice synthesis is skipped. -/
theorem C1_death_sentinel_turn (s : ChatState) (r : String) (t1 t2 : Nat)
    (h_alive : s.isDead = false) (h_input : jsTrim s.inputText ≠ "")
    (h_nf : s.showNewUserForm = false) (h_sk : s.isSkippingTime = false)
    (h_died : strIncludes r deathTag = true) :
    (sendMessageEvent s (Except.ok r) t1 t2).1.messages =
      s.messages ++
        [ { id := toString t1, role := Role.user, text := s.inputText,
            timestamp := t1, isDeath := none, generatedImage := none },
          { id := toString (t2 + 1), role := Role.model,
            text := jsTrim (replaceFirst r deathTag ""), timestamp := t2,
            isDeath := some true, generatedImage := none } ] ∧
    deriveState (sendMessageEvent s (Except.ok r) t1 t2).1 = DerivedState.DEAD ∧
    (sendMessageEvent s (Except.ok r) t1 t2).2 = false := by
  simp [sendMessageEvent, handleSendMessage, h_alive, h_input, h_died,
    applyDeathEffect_eq, deriveState, h_nf, h_sk]

/-- Witness for C1 (amended) at a concrete single-sentinel reply. -/
theorem C1_death_sentinel_turn_witness :
    (aliveChat.isDead = false ∧ jsTrim aliveChat.inputText ≠ "" ∧
        aliveChat.showNewUserForm = false ∧ aliveChat.isSkippingTime = false ∧
        strIncludes "Você morreu. [GAME_OVER]" deathTag = true) ∧
      ((sendMessageEvent aliveChat (Except.ok "Você morreu. [GAME_OVER]") 20 21).1.messages =
          aliveChat.messages ++
            [ { id := toString 20, role := Role.user, text := aliveChat.inputText,
                timestamp := 20, isDeath := none, generatedImage := none },
              { id := toString (21 + 1), role := Role.model,
                text := jsTrim (replaceFirst "Você morreu. [GAME_OVER]" deathTag ""),
                timestamp := 21, isDeath := some true, generatedImage := none } ] ∧
        deriveState (sendMessageEvent aliveChat
            (Except.ok "Você morreu. [GAME_OVER]") 20 21).1 = DerivedState.DEAD ∧
        (sendMessageEvent aliveChat (Except.ok "Você morreu. [GAME_OVER]") 20 21).2 = false) :=
  ⟨⟨by decide, by decide, by decide, by decide, by decide⟩,
    C1_death_sentinel_turn aliveChat "Você morreu. [GAME_OVER]" 20 21
      (by decide) (by decide) (by decide) (by decide) (by decide)⟩

/-- C5: submitting a new persona appends exactly the entrance message — which
never carries `isDeath` — replaces the session's persona, and the derived
state becomes ALIVE. -/
theorem C5_new_persona (s : ChatState) (u : UserPersona) (t : Nat)
    (h : deriveState s = DerivedState.AWAITING_NEW_PERSONA) :
    (newUserCreatedEvent s u t).messages = s.messages ++ [entranceMsg u t] ∧
    (entranceMsg u t).isDeath = none ∧
    (newUserCreatedEvent s u t).activeUserPersona = some u ∧
    deriveState (newUserCreatedEvent s u t) = DerivedState.ALIVE := by
  simp [newUserCreatedEvent, handleNewUserCreated, applyDeathEffect_eq,
    entranceMsg, deriveState]

/-- Witness for C5 at a concrete AWAITING_NEW_PERSONA state. -/
theorem C5_new_persona_witness :
    deriveState (timeSkipEvent timeSkipReady (Except.ok sampleUpdates)
        (Except.error ()) 400 401).1 = DerivedState.AWAITING_NEW_PERSONA ∧
      (deriveState (newUserCreatedEvent (timeSkipEvent timeSkipReady
          (Except.ok sampleUpdates) (Except.error ()) 400 401).1 viajante 500) =
        DerivedState.ALIVE) :=
  ⟨by decide,
    (C5_new_persona (timeSkipEvent timeSkipReady (Except.ok sampleUpdates)
      (Except.error ()) 400 401).1 viajante 500 (by decide)).2.2.2⟩

/-- A time-skip event whose collaborator call succeeds, fired from the DEAD
overlay on a log free of the reserved placeholder id: the placeholder is
deleted again, the consolidated message lands at the end of the log, the
character's height/weight/age/image are replaced, and the new-persona form
comes up. -/
theorem timeSkipEvent_ok (s : ChatState) (updates : TimeSkipUpdates)
    (imgResult : Except Unit String) (t1 t2 : Nat)
    (h_dead : s.isDead = true) (h_show : s.showTimeSkipInput = true)
    (h_nf : s.showNewUserForm = false) (h_sk : s.isSkippingTime = false)
    (h_dur : s.timeSkipDuration ≠ "")
    (h_clean : ∀ m ∈ s.messages, m.id ≠ "skip_calc") :
    timeSkipEvent s (Except.ok updates) imgResult t1 t2 =
      ({ s with
          activeCharacter := { s.activeCharacter with
            weight := some updates.newWeight
            height := some updates.newHeight
            age := some updates.newAge
            baseImage :=
              if updates.visualEvolutionPrompt ≠ "" then
                match imgResult with
                | Except.ok img => img
                | Except.error _ => s.activeCharacter.baseImage
              else s.activeCharacter.baseImage }
          messages := s.messages ++
            [ { id := toString t2, role := Role.model,
                text := skipSummaryText s.timeSkipDuration updates,
                timestamp := t2, isDeath := none, generatedImage := none } ]
          showTimeSkipInput := false
          showNewUserForm := true
          isSkippingTime := false }, false) := by
  have hfilter : s.messages.filter (fun m => m.id ≠ "skip_calc") = s.messages :=
    List.filter_eq_self.mpr (fun m hm => by simpa using h_clean m hm)
  simp [timeSkipEvent, h_dead, h_show, h_nf, h_sk, handleTimeSkip, h_dur,
    List.filter_append, hfilter, applyDeathEffect_eq]
  exact h_clean

/-- A time-skip event whose collaborator call fails, fired from the DEAD
overlay on a log free of the reserved placeholder id: the state comes back
exactly as it was and the failure alert is shown. -/
theorem timeSkipEvent_error (s : ChatState)
    (imgResult : Except Unit String) (t1 t2 : Nat)
    (h_dead : s.isDead = true) (h_show : s.showTimeSkipInput = true)
    (h_nf : s.showNewUserForm = false) (h_sk : s.isSkippingTime = false)
    (h_dur : s.timeSkipDuration ≠ "")
    (h_clean : ∀ m ∈ s.messages, m.id ≠ "skip_calc") :
    timeSkipEvent s (Except.error ()) imgResult t1 t2 = (s, true) := by
  have hfilter : s.messages.filter (fun m => m.id ≠ "skip_calc") = s.messages :=
    List.filter_eq_self.mpr (fun m hm => by simpa using h_clean m hm)
  have h1 : ({ s with isSkippingTime := false } : ChatState) = s := by
    cases s; simp_all
  simp [timeSkipEvent, h_dead, h_show, h_nf, h_sk, handleTimeSkip, h_dur,
    List.filter_append, hfilter, applyDeathEffect_eq]
  cases s
  simp_all

/-- C2: a successful time skip leaves no message with the placeholder's
reserved id `skip_calc` in the final log, appends exactly one consolidated
narrative model message at the end, replaces height/weight/age and the base
image on the Character while every other Character field is unchanged, and
moves the derived state to AWAITING_NEW_PERSONA. -/
theorem C2_timeSkip_success (s : ChatState) (updates : TimeSkipUpdates)
    (imgResult : Except Unit String) (t1 t2 : Nat)
    (h_dead : s.isDead = true) (h_show : s.showTimeSkipInput = true)
    (h_nf : s.showNewUserForm = false) (h_sk : s.isSkippingTime = false)
    (h_dur : s.timeSkipDuration ≠ "")
    (h_clean : ∀ m ∈ s.messages, m.id ≠ "skip_calc")
    (h_fresh : toString t2 ≠ "skip_calc") :
    (timeSkipEvent s (Except.ok updates) imgResult t1 t2).1.messages =
        s.messages ++
          [ { id := toString t2, role := Role.model,
              text := skipSummaryText s.timeSkipDuration updates,
              timestamp := t2, isDeath := none, generatedImage := none } ] ∧
      (∀ m ∈ (timeSkipEvent s (Except.ok updates) imgResult t1 t2).1.messages,
          m.id ≠ "skip_calc") ∧
      (timeSkipEvent s (Except.ok updates) imgResult t1 t2).1.activeCharacter =
        { s.activeCharacter with
            weight := some updates.newWeight
            height := some updates.newHeight
            age := some updates.newAge
            baseImage :=
              if updates.visualEvolutionPrompt ≠ "" then
                match imgResult with
                | Except.ok img => img
                | Except.error _ => s.activeCharacter.baseImage
              else s.activeCharacter.baseImage } ∧
      deriveState (timeSkipEvent s (Except.ok updates) imgResult t1 t2).1 =
        DerivedState.AWAITING_NEW_PERSONA := by
  rw [timeSkipEvent_ok s updates imgResult t1 t2 h_dead h_show h_nf h_sk h_dur h_clean]
  refine ⟨rfl, ?_, rfl, rfl⟩
  intro m hm
  simp at hm
  rcases hm with hm | hm
  · exact h_clean m hm
  · rw [hm]; exact h_fresh

/-- Witness for C2 at the concrete ready-to-skip state. -/
theorem C2_timeSkip_success_witness :
    (timeSkipReady.isDead = true ∧ timeSkipReady.showTimeSkipInput = true ∧
        timeSkipReady.showNewUserForm = false ∧ timeSkipReady.isSkippingTime = false ∧
        timeSkipReady.timeSkipDuration ≠ "" ∧ toString 401 ≠ "skip_calc") ∧
      ((timeSkipEvent timeSkipReady (Except.ok sampleUpdates)
            (Except.error ()) 400 401).1.activeCharacter =
          { timeSkipReady.activeCharacter with
              weight := some sampleUpdates.newWeight
              height := some sampleUpdates.newHeight
              age := some sampleUpdates.newAge
              baseImage :=
                if sampleUpdates.visualEvolutionPrompt ≠ "" then
                  match (Except.error () : Except Unit String) with
                  | Except.ok img => img
                  | Except.error _ => timeSkipReady.activeCharacter.baseImage
                else timeSkipReady.activeCharacter.baseImage } ∧
        deriveState (timeSkipEvent timeSkipReady (Except.ok sampleUpdates)
            (Except.error ()) 400 401).1 = DerivedState.AWAITING_NEW_PERSONA) :=
  ⟨⟨by decide, by decide, by decide, by decide, by decide, by decide⟩,
    ((C2_timeSkip_success timeSkipReady sampleUpdates (Except.error ()) 400 401
        (by decide) (by decide) (by decide) (by decide) (by decide)
        (by decide) (by decide)).2.2.1),
    ((C2_timeSkip_success timeSkipReady sampleUpdates (Except.error ()) 400 401
        (by decide) (by decide) (by decide) (by decide) (by decide)
        (by decide) (by decide)).2.2.2)⟩

/-- C3: a time skip whose collaborator call fails removes the placeholder
(the final log equals the original), leaves the Character entirely
unchanged, reports the failure to the caller, and the derived state remains
DEAD. -/
theorem C3_timeSkip_failure (s : ChatState) (imgResult : Except Unit String)
    (t1 t2 : Nat)
    (h_dead : s.isDead = true) (h_show : s.showTimeSkipInput = true)
    (h_nf : s.showNewUserForm = false) (h_sk : s.isSkippingTime = false)
    (h_dur : s.timeSkipDuration ≠ "")
    (h_clean : ∀ m ∈ s.messages, m.id ≠ "skip_calc") :
    timeSkipEvent s (Except.error ()) imgResult t1 t2 = (s, true) ∧
      deriveState s = DerivedState.DEAD := by
  refine ⟨timeSkipEvent_error s imgResult t1 t2 h_dead h_show h_nf h_sk h_dur h_clean, ?_⟩
  simp [deriveState, h_dead, h_nf, h_sk]

/-- Witness for C3 at the concrete ready-to-skip state. -/
theorem C3_timeSkip_failure_witness :
    (timeSkipReady.isDead = true ∧ timeSkipReady.timeSkipDuration ≠ "") ∧
      timeSkipEvent timeSkipReady (Except.error ()) (Except.error ()) 400 401 =
          (timeSkipReady, true) ∧
        deriveState timeSkipReady = DerivedState.DEAD :=
  ⟨⟨by decide, by decide⟩,
    C3_timeSkip_failure timeSkipReady (Except.error ()) 400 401
      (by decide) (by decide) (by decide) (by decide) (by decide)
      (by decide)⟩

/-- C6 counterexample: the claim says a malformed time-skip JSON reply leaves
the Character, the log and the derived state untouched; but `processTimeSkip`
catches the parse failure and substitutes a fallback result, so the skip
completes as a success — the log grows and the state moves to
AWAITING_NEW_PERSONA. -/
theorem C6_counterexample :
    (timeSkipEvent timeSkipReady
          (Except.ok (processTimeSkip timeSkipReady.activeCharacter "10 anos"
            TimeSkipParse.malformed))
          (Except.error ()) 30 31).1.messages ≠ timeSkipReady.messages ∧
      deriveState (timeSkipEvent timeSkipReady
          (Except.ok (processTimeSkip timeSkipReady.activeCharacter "10 anos"
            TimeSkipParse.malformed))
          (Except.error ()) 30 31).1 = DerivedState.AWAITING_NEW_PERSONA := by
  decide

/-- C6 (amended): a malformed profile JSON reply is surfaced as the generic
failure `Falha ao gerar perfil automático.` with nothing applied, but a
malformed time-skip JSON reply is NOT surfaced: `processTimeSkip` silently
substitutes a fallback record (prior stats as the new stats, a generic
summary, a fixed visual-evolution instruction) and the skip is applied as a
success — the consolidated message is appended and the derived state moves
to AWAITING_NEW_PERSONA. -/
theorem C6_parse_failure_behaviour (s : ChatState) (ch : Character) (dur : String)
    (imgResult : Except Unit String) (t1 t2 : Nat)
    (h_dead : s.isDead = true) (h_show : s.showTimeSkipInput = true)
    (h_nf : s.showNewUserForm = false) (h_sk : s.isSkippingTime = false)
    (h_dur : s.timeSkipDuration ≠ "")
    (h_clean : ∀ m ∈ s.messages, m.id ≠ "skip_calc") :
    autoFillCharacterProfile none = Except.error "Falha ao gerar perfil automático." ∧
      processTimeSkip ch dur TimeSkipParse.malformed =
        { newWeight := ch.weight.getD "?"
          newHeight := ch.height.getD "?"
          newAge := ch.age.getD "?"
          stats := "Sobreviveu."
          summary := "Passaram-se " ++ dur ++ ". O personagem continuou sua existência."
          visualEvolutionPrompt := "older, different appearance" } ∧
      (timeSkipEvent s
          (Except.ok (processTimeSkip s.activeCharacter s.timeSkipDuration
            TimeSkipParse.malformed))
          imgResult t1 t2).1.messages =
        s.messages ++
          [ { id := toString t2, role := Role.model,
              text := skipSummaryText s.timeSkipDuration
                (processTimeSkip s.activeCharacter s.timeSkipDuration
                  TimeSkipParse.malformed),
              timestamp := t2, isDeath := none, generatedImage := none } ] ∧
      deriveState (timeSkipEvent s
          (Except.ok (processTimeSkip s.activeCharacter s.timeSkipDuration
            TimeSkipParse.malformed))
          imgResult t1 t2).1 = DerivedState.AWAITING_NEW_PERSONA := by
  refine ⟨rfl, rfl, ?_, ?_⟩
  · rw [timeSkipEvent_ok s _ imgResult t1 t2 h_dead h_show h_nf h_sk h_dur h_clean]
  · rw [timeSkipEvent_ok s _ imgResult t1 t2 h_dead h_show h_nf h_sk h_dur h_clean]
    simp [deriveState]

/-- Witness for C6 (amended) at the concrete ready-to-skip state. -/
theorem C6_parse_failure_behaviour_witness :
    (timeSkipReady.isDead = true ∧ timeSkipReady.timeSkipDuration ≠ "") ∧
      deriveState (timeSkipEvent timeSkipReady
          (Except.ok (processTimeSkip timeSkipReady.activeCharacter
            timeSkipReady.timeSkipDuration TimeSkipParse.malformed))
          (Except.error ()) 30 31).1 = DerivedState.AWAITING_NEW_PERSONA :=
  ⟨⟨by decide, by decide⟩,
    (C6_parse_failure_behaviour timeSkipReady grogCharacter "10 anos"
        (Except.error ()) 30 31 (by decide) (by decide) (by decide) (by decide)
        (by decide) (by decide)).2.2.2⟩

/-- The chat state after two chat sends whose collaborator call failed. -/
def chatAfterTwoFailures : ChatState :=
  (sendMessageEvent
    { (sendMessageEvent aliveChat (Except.error ()) 1 2).1 with inputText := "De novo" }
    (Except.error ()) 3 4).1

/-- C7 counterexample: the claim says message ids are pairwise distinct in
every reachable session, including failure paths; but the sendTurn failure
path appends a message with the fixed id `err`, so two failed sends leave
two messages with the same id. -/
theorem C7_counterexample :
    msgIds chatAfterTwoFailures.messages = ["init", "1", "err", "3", "err"] ∧
      ¬ (msgIds chatAfterTwoFailures.messages).Nodup := by
  decide

/-- C7 (amended): a successful chat send preserves pairwise-distinct message
ids whenever the two clock-derived ids are fresh; distinctness is NOT
preserved by the failure paths of sendTurn and action-scene generation,
which both reuse the fixed id `err`. -/
theorem C7_unique_ids_success_path (s : ChatState) (r : String) (t1 t2 : Nat)
    (h_nodup : (msgIds s.messages).Nodup)
    (h_f1 : toString t1 ∉ msgIds s.messages)
    (h_f2 : toString (t2 + 1) ∉ msgIds s.messages)
    (h_ne : toString t1 ≠ toString (t2 + 1)) :
    (msgIds (sendMessageEvent s (Except.ok r) t1 t2).1.messages).Nodup := by
  unfold sendMessageEvent
  by_cases hd : s.isDead
  · simpa [hd] using h_nodup
  · simp only [hd, Bool.false_eq_true, if_false, applyDeathEffect_messages]
    by_cases hi : jsTrim s.inputText = ""
    · simpa [handleSendMessage, hi] using h_nodup
    · rw [handleSendMessage_ok_messages s r t1 t2 hi]
      simp only [msgIds, List.map_append, List.map_cons, List.map_nil]
      refine List.Nodup.append h_nodup ?_ ?_
      · simp [h_ne]
      · intro a ha hb
        simp only [List.mem_cons, List.mem_singleton, List.not_mem_nil] at hb
        rcases hb with hb | hb | hb
        · exact h_f1 (hb ▸ ha)
        · exact h_f2 (hb ▸ ha)
        · exact hb

/-- Witness for C7 (amended) at the seed session. -/
theorem C7_unique_ids_success_path_witness :
    ((msgIds aliveChat.messages).Nodup ∧ toString 1 ∉ msgIds aliveChat.messages ∧
        toString (2 + 1) ∉ msgIds aliveChat.messages ∧
        toString 1 ≠ toString (2 + 1)) ∧
      (msgIds (sendMessageEvent aliveChat (Except.ok "Oi!") 1 2).1.messages).Nodup :=
  ⟨⟨by decide, by decide, by decide, by decide⟩,
    C7_unique_ids_success_path aliveChat "Oi!" 1 2
      (by decide) (by decide) (by decide) (by decide)⟩

/-- The `CharacterSetup` form with a name and description typed in and every
other cell still at its initial value. -/
def setupBase : SetupState :=
  { initialSetup with name := "Grog", description := "Um ogro" }

/-- C8 counterexample: the claim says `humanPreferences` is absent whenever
the diet type is HERBIVORE or `eatsHumans` is false; but switching the diet
back to HERBIVORE does not reset `eatsHumans`, and `handleComplete` consults
only `eatsHumans`, so a reachable HERBIVORE character carries
`humanPreferences`. -/
theorem C8_counterexample :
    (handleComplete (applyDietEvents setupBase
          [DietEvent.setType DietType.CARNIVORE, DietEvent.setEatsHumans true,
           DietEvent.setType DietType.HERBIVORE]) 5).map Character.diet =
      some (some
        { type := DietType.HERBIVORE
          details := ""
          eatsHumans := true
          humanPreferences := some
            { ageGroup := "Qualquer um", bodyType := "Qualquer um",
              tastePreference := "Qualquer um" } }) := by
  decide

/-- C8 (amended): for every Character produced by `handleComplete`,
`humanPreferences` is absent whenever `eatsHumans` is false — the diet type
is not consulted, so the HERBIVORE half of the stated invariant does not
hold. -/
theorem C8_diet_invariant (st : SetupState) (t : Nat) (c : Character)
    (d : DietConfig) (hc : handleComplete st t = some c) (hd : c.diet = some d)
    (h : d.eatsHumans = false) : d.humanPreferences = none := by
  unfold handleComplete at hc
  split at hc
  · exact Option.noConfusion hc
  · injection hc with hc
    subst hc
    simp only at hd
    injection hd with hd
    subst hd
    simp only at h ⊢
    simp [h]

/-- Witness for C8 (amended) at the concrete herbivore form state. -/
theorem C8_diet_invariant_witness :
    ({ type := DietType.HERBIVORE, details := "", eatsHumans := false,
        humanPreferences := none } : DietConfig).humanPreferences = none :=
  C8_diet_invariant setupBase 5
    { id := "5", name := "Grog", description := "Um ogro",
      baseImage := placeholderImage,
      systemInstruction := "Você é Grog. Um ogro. Tom da história: Sombrio e Realista.",
      height := some "", weight := some "", powers := some "", age := some "",
      lifeExpectancy := some "",
      diet := some { type := DietType.HERBIVORE, details := "", eatsHumans := false,
                     humanPreferences := none },
      encounter := some { environment := "", whoSawFirst := WhoSawFirst.BOTH },
      questionAnswers := some [] }
    { type := DietType.HERBIVORE, details := "", eatsHumans := false,
      humanPreferences := none }
    (by decide) (by decide) (by decide)

/-- C9 counterexample: the claim says every change to the session collection
is rewritten in full to storage; but the save effect only writes while the
collection is non-empty, so deleting the last session leaves the deleted
session in the stored blob. -/
theorem C9_counterexample :
    (handleDeleteSession [seedSession] (some "100") "100" true).1 = [] ∧
      saveSessionsEffect (StoredBlob.valid [seedSession])
          (handleDeleteSession [seedSession] (some "100") "100" true).1 =
        StoredBlob.valid [seedSession] := by
  decide

/-- C9 (amended): after every change that leaves the collection non-empty the
full collection is rewritten to the fixed storage slot; a change that empties
the collection leaves the previously stored blob in place; and at startup a
missing or corrupt blob yields the empty collection rather than a crash. -/
theorem C9_persistence (blob : StoredBlob) (sessions : List ChatSession) :
    (sessions ≠ [] → saveSessionsEffect blob sessions = StoredBlob.valid sessions) ∧
      (sessions = [] → saveSessionsEffect blob sessions = blob) ∧
      loadSessionsEffect StoredBlob.missing = [] ∧
      loadSessionsEffect StoredBlob.corrupt = [] := by
  refine ⟨fun h => ?_, fun h => ?_, rfl, rfl⟩
  · cases sessions with
    | nil => exact absurd rfl h
    | cons a l => simp [saveSessionsEffect]
  · subst h; simp [saveSessionsEffect]

/-- Witness for C9 (amended) at a concrete one-session collection. -/
theorem C9_persistence_witness :
    ([seedSession] ≠ ([] : List ChatSession) ∧
        saveSessionsEffect StoredBlob.missing [seedSession] =
          StoredBlob.valid [seedSession]) ∧
      loadSessionsEffect StoredBlob.corrupt = [] :=
  ⟨⟨by decide, (C9_persistence StoredBlob.missing [seedSession]).1 (by decide)⟩,
    (C9_persistence StoredBlob.missing [seedSession]).2.2.2⟩

/-- C10: when the image-evolution response carries no inline data,
`evolveCharacterVisuals` returns the input image unchanged while
`editCharacterImage` raises; consequently a time skip whose image call hits
such a response silently keeps the character's prior base image. -/
theorem C10_evolve_empty_response (img : String) (parts : List Part)
    (s : ChatState) (updates : TimeSkipUpdates) (t1 t2 : Nat)
    (h_empty : firstInlineData parts = none)
    (h_dead : s.isDead = true) (h_show : s.showTimeSkipInput = true)
    (h_nf : s.showNewUserForm = false) (h_sk : s.isSkippingTime = false)
    (h_dur : s.timeSkipDuration ≠ "")
    (h_clean : ∀ m ∈ s.messages, m.id ≠ "skip_calc") :
    evolveCharacterVisuals img parts = img ∧
      editCharacterImage img parts = Except.error "Nenhuma imagem gerada." ∧
      (timeSkipEvent s (Except.ok updates)
          (Except.ok (evolveCharacterVisuals s.activeCharacter.baseImage parts))
          t1 t2).1.activeCharacter.baseImage = s.activeCharacter.baseImage := by
  have hev : ∀ b, evolveCharacterVisuals b parts = b := fun b => by
    simp [evolveCharacterVisuals, h_empty]
  refine ⟨hev img, by simp [editCharacterImage, h_empty], ?_⟩
  rw [timeSkipEvent_ok s updates _ t1 t2 h_dead h_show h_nf h_sk h_dur h_clean]
  simp [hev]

/-- Witness for C10 at a concrete empty response. -/
theorem C10_evolve_empty_response_witness :
    (firstInlineData [{ inlineData := none }] = none ∧
        timeSkipReady.isDead = true ∧ timeSkipReady.timeSkipDuration ≠ "") ∧
      evolveCharacterVisuals "img0" [{ inlineData := none }] = "img0" ∧
        editCharacterImage "img0" [{ inlineData := none }] =
            Except.error "Nenhuma imagem gerada." ∧
          (timeSkipEvent timeSkipReady (Except.ok sampleUpdates)
              (Except.ok (evolveCharacterVisuals timeSkipReady.activeCharacter.baseImage
                [{ inlineData := none }]))
              600 601).1.activeCharacter.baseImage =
            timeSkipReady.activeCharacter.baseImage :=
  ⟨⟨by decide, by decide, by decide⟩,
    C10_evolve_empty_response "img0" [{ inlineData := none }] timeSkipReady
      sampleUpdates 600 601 (by decide) (by decide) (by decide) (by decide)
      (by decide) (by decide) (by decide)⟩

end PersonaForge
